import Mathlib

/-!
Verification development for the "are-we-there-yet" road-trip app.

This file gives a shallow embedding of the app's verified-narration
pipeline and proves (or refutes) the frozen claims about it:

* the serverless fact endpoint (api/fun-fact.js): a bounded
  generate-and-verify retry loop;
* the two fact-verification endpoints (api/verify-fact.js with web
  search, and the self-assessment variant) with their JSON-in-a-code-
  fence response parsing;
* the browser client (src/services/claude.js getFunFact) composed with
  the endpoint;
* the text-to-speech queue (src/services/speech.js): a collapsing
  request queue over one persistent audio element, with a Web Speech
  fallback path;
* the fun-fact trigger evaluation in FunFactCard.jsx;
* the TTS endpoint (api/speak.js) voice validation.

External effects (HTTP fetches, the JSON parser, audio playback, and
speech synthesis) are modelled as explicit parameters or environment-
chosen outcome values; everything the repository's own code computes is
translated into executable Lean definitions.
-/

/- ### JavaScript string helpers

The source relies on String.prototype.trim, String.prototype.split and
a regular expression over code fences.  We model strings at the
character-list level.  -/

/-- The backtick character (written via its code point). -/
def backtickChar : Char := Char.ofNat 96

/-- Whitespace as recognized by JavaScript's trim and the regex class
backslash-s: space, tab, line feed, carriage return, vertical tab, form
feed and no-break space. -/
def isJsSpace (c : Char) : Bool :=
  c = ' ' || c = '\t' || c = '\n' || c = '\r' ||
  c = Char.ofNat 11 || c = Char.ofNat 12 || c = Char.ofNat 160

/-- Model of String.prototype.trim on character lists: drop whitespace
from both ends. -/
def trimChars (cs : List Char) : List Char :=
  ((cs.dropWhile isJsSpace).reverse.dropWhile isJsSpace).reverse

/-- String.prototype.trim. -/
def jsTrim (s : String) : String :=
  String.mk (trimChars s.data)

/-- The city part of a Mapbox place name: everything before the first
comma, trimmed.  Models place.split(char 44)[0].trim() from
FunFactCard.jsx. -/
def shortPlaceOf (place : String) : String :=
  jsTrim (String.mk (place.data.takeWhile (fun c => !(c = ','))))

/- ### Code-fence extraction

Both verifier endpoints parse the model's reply with

  if (text.includes(fence)) then
    match = text.match of regex fence (json)? ws* lazy-capture fence
    if (match) jsonText = match[1].trim()

where fence is three backticks.  The definitions below reproduce the
first-match semantics of that regular expression on character lists. -/

/-- Does the list start with three backticks? -/
def startsFence : List Char → Bool
  | a :: b :: c :: _ => a = backtickChar && b = backtickChar && c = backtickChar
  | _ => false

/-- Model of text.includes(three backticks). -/
def hasFence : List Char → Bool
  | [] => false
  | c :: rest => startsFence (c :: rest) || hasFence rest

/-- The characters strictly before the next fence, or none if no fence
follows (the regex's lazy capture up to the closing fence). -/
def takeToFence : List Char → Option (List Char)
  | [] => none
  | c :: rest =>
    if startsFence (c :: rest) then some []
    else (takeToFence rest).map (fun cap => c :: cap)

/-- Drop the optional literal word json after the opening fence
(the regex group (json)? ). -/
def dropJsonTag : List Char → List Char
  | 'j' :: 's' :: 'o' :: 'n' :: rest => rest
  | cs => cs

/-- First match of the fence-extraction regex: scan for the first
opening fence from which a closing fence is reachable; the capture sits
after an optional json tag and greedy whitespace. -/
def extractFence : List Char → Option (List Char)
  | [] => none
  | c :: rest =>
    if startsFence (c :: rest) then
      match takeToFence ((dropJsonTag (rest.drop 2)).dropWhile isJsSpace) with
      | some cap => some cap
      | none => extractFence rest
    else extractFence rest

/-- The text actually handed to JSON.parse by the verifier endpoints:
trim the reply; if it contains a fence and the regex matches, use the
trimmed capture, else keep the trimmed reply. -/
def jsonTextOf (raw : List Char) : List Char :=
  let text := trimChars raw
  if hasFence text then
    match extractFence text with
    | some cap => trimChars cap
    | none => text
  else text

/- ### Verification data model

The verifier endpoints ask a language model for a JSON object with a
confidence field and (for the web-search variants) a verified flag, and
then compute a verdict from the parsed object.  The parsed object is
modelled by VerParsed; the upstream HTTP response by VUpstream; and
JSON.parse (a host capability) by an explicit parse parameter. -/

/-- A successfully parsed verifier reply: the verified field (none when
absent or not a boolean, matching strict triple-equals with true) and
the numeric confidence. -/
structure VerParsed where
  verifiedFlag : Option Bool
  confidence : Int
deriving DecidableEq, Repr

/-- One content block of an Anthropic messages response: a text block
carrying its characters, or any other block kind (tool use, etc.). -/
inductive VBlock where
  | text (s : List Char)
  | other
deriving DecidableEq, Repr

/-- The upstream messages-API response seen by a verifier: either a
non-2xx response, or a 2xx response with a list of content blocks. -/
inductive VUpstream where
  | notOk
  | ok (content : List VBlock)
deriving DecidableEq, Repr

/-- data.content.find(block whose type is text): the first text block,
as used by the web-search verifiers. -/
def findTextBlock : List VBlock → Option (List Char)
  | [] => none
  | .text s :: _ => some s
  | .other :: rest => findTextBlock rest

/-- data.content[0].text as used by the self-assessment endpoint: only
the first block is consulted; anything else throws (and is caught). -/
def firstBlockText : List VBlock → Option (List Char)
  | .text s :: _ => some s
  | _ => none

/-- Self-assessment verdict (api/verify-fact.js self-assessment variant,
line: verified is confidence at least 7). -/
def selfAssessVerified (p : VerParsed) : Bool :=
  decide (7 ≤ p.confidence)

/-- Evidence-search verdict of the deployed endpoint
(api/verify-fact.js: verified is the flag strictly equal to true and
confidence at least 5). -/
def evidenceVerifiedApi (p : VerParsed) : Bool :=
  p.verifiedFlag == some true && decide (5 ≤ p.confidence)

/-- Evidence-search verdict of the in-browser development path
(src/services/verification.js web-search variant: flag strictly true
and confidence at least 6). -/
def evidenceVerifiedDev (p : VerParsed) : Bool :=
  p.verifiedFlag == some true && decide (6 ≤ p.confidence)

/-- JavaScript truthiness test for an optional request field: absent or
the empty string is falsy. -/
def optFalsy : Option String → Bool
  | none => true
  | some s => s = ""

/-- A verify-endpoint request: HTTP method and the two body fields. -/
structure VerifyRequest where
  method : String
  funFact : Option String
  placeName : Option String
deriving DecidableEq, Repr

/-- A verify-endpoint response body. -/
inductive VerifyBody where
  | err (msg : String)
  | verdict (verified : Bool) (confidence : Int)
deriving DecidableEq, Repr

/-- The api/verify-fact.js handler (evidence-search deployment).  The
upstream fetch outcome and JSON.parse are parameters; every error path
inside the try block is caught and mapped to a 200 with a negative
verdict, exactly as in the source. -/
def verifyFactHandler (hasApiKey : Bool) (req : VerifyRequest)
    (up : VUpstream) (parse : List Char → Option VerParsed) :
    Nat × VerifyBody :=
  if !(req.method = "POST") then (405, .err "Method not allowed")
  else if optFalsy req.funFact || optFalsy req.placeName then
    (400, .err "funFact and placeName are required")
  else if !hasApiKey then (500, .err "Server configuration error")
  else
    match up with
    | .notOk => (200, .verdict false 0)
    | .ok content =>
      match findTextBlock content with
      | none => (200, .verdict false 0)
      | some raw =>
        match parse (jsonTextOf raw) with
        | none => (200, .verdict false 0)
        | some p => (200, .verdict (evidenceVerifiedApi p) p.confidence)

/-- The self-assessment verify endpoint (the variant that rates its own
confidence with no web search). -/
def selfVerifyHandler (hasApiKey : Bool) (req : VerifyRequest)
    (up : VUpstream) (parse : List Char → Option VerParsed) :
    Nat × VerifyBody :=
  if !(req.method = "POST") then (405, .err "Method not allowed")
  else if optFalsy req.funFact || optFalsy req.placeName then
    (400, .err "funFact and placeName are required")
  else if !hasApiKey then (500, .err "Server configuration error")
  else
    match up with
    | .notOk => (200, .verdict false 0)
    | .ok content =>
      match firstBlockText content with
      | none => (200, .verdict false 0)
      | some raw =>
        match parse (jsonTextOf raw) with
        | none => (200, .verdict false 0)
        | some p => (200, .verdict (selfAssessVerified p) p.confidence)

/-- The development (direct browser call) web-search verifier from
src/services/verification.js: same parsing pipeline, threshold 6,
returning the pair (verified, confidence). -/
def verifyFactDev (up : VUpstream) (parse : List Char → Option VerParsed) :
    Bool × Int :=
  match up with
  | .notOk => (false, 0)
  | .ok content =>
    match findTextBlock content with
    | none => (false, 0)
    | some raw =>
      match parse (jsonTextOf raw) with
      | none => (false, 0)
      | some p => (evidenceVerifiedDev p, p.confidence)

/-- The internal verifier of api/fun-fact.js (lines 79-150): identical
pipeline to the deployed evidence-search endpoint, returning the pair
(verified, confidence) used by the retry loop. -/
def verifyFactInner (up : VUpstream) (parse : List Char → Option VerParsed) :
    Bool × Int :=
  match up with
  | .notOk => (false, 0)
  | .ok content =>
    match findTextBlock content with
    | none => (false, 0)
    | some raw =>
      match parse (jsonTextOf raw) with
      | none => (false, 0)
      | some p => (evidenceVerifiedApi p, p.confidence)

/- ### The fact-acquisition endpoint (api/fun-fact.js)

The handler runs up to MAX_VERIFICATION_ATTEMPTS generate-and-verify
round trips.  generateFact throws when its fetch is not ok (or its body
is malformed); that exception propagates out of the loop to the
handler's catch.  The per-attempt external world is an environment
mapping the attempt number to the generator outcome and the verifier's
upstream response. -/

/-- Outcome of one generateFact call: the trimmed candidate text, or a
thrown error (non-2xx response or malformed body). -/
inductive GenOutcome where
  | ok (text : String)
  | fail
deriving DecidableEq, Repr

/-- The external world of one attempt. -/
structure AttemptEnv where
  gen : GenOutcome
  ver : VUpstream
deriving Repr

/-- How the retry loop ended. -/
inductive LoopOut where
  | success (fact : String)
  | exhausted
  | threw
deriving DecidableEq, Repr

/-- MAX_VERIFICATION_ATTEMPTS from api/fun-fact.js line 16. -/
def MAX_VERIFICATION_ATTEMPTS : Nat := 3

/-- The for-loop of the handler (lines 171-190): attempt counts up,
remaining counts down from MAX_VERIFICATION_ATTEMPTS; gens and vers
accumulate the number of generator and verifier calls made.  A verified
candidate returns immediately; a generator throw ends the loop with
threw. -/
def factLoop (parse : List Char → Option VerParsed)
    (env : Nat → AttemptEnv) :
    Nat → Nat → Nat → Nat → LoopOut × Nat × Nat
  | _, 0, gens, vers => (.exhausted, gens, vers)
  | attempt, remaining + 1, gens, vers =>
    match (env attempt).gen with
    | .fail => (.threw, gens + 1, vers)
    | .ok fact =>
      if (verifyFactInner (env attempt).ver parse).1 then
        (.success fact, gens + 1, vers + 1)
      else
        factLoop parse env (attempt + 1) remaining (gens + 1) (vers + 1)

/-- A fun-fact request: method and body fields (isDestination defaults
to false in the source when absent). -/
structure FactRequest where
  method : String
  placeName : Option String
  isDestination : Bool
deriving DecidableEq, Repr

/-- A fun-fact response body: a bare error object, the fact payload, or
the catch-path payload carrying both an error and the fact fields. -/
inductive FactBody where
  | errorOnly (msg : String)
  | fact (funFact : Option String) (verified : Bool)
  | errWithFact (msg : String) (funFact : Option String) (verified : Bool)
deriving DecidableEq, Repr

/-- The observable outcome of one handler run: HTTP status, body, and
how many generator and verifier round trips were made. -/
structure HandlerOut where
  status : Nat
  body : FactBody
  genCalls : Nat
  verCalls : Nat
deriving DecidableEq, Repr

/-- The api/fun-fact.js handler (lines 152-207). -/
def funFactHandler (parse : List Char → Option VerParsed)
    (hasApiKey : Bool) (req : FactRequest) (env : Nat → AttemptEnv) :
    HandlerOut :=
  if !(req.method = "POST") then ⟨405, .errorOnly "Method not allowed", 0, 0⟩
  else if optFalsy req.placeName then
    ⟨400, .errorOnly "placeName is required", 0, 0⟩
  else if !hasApiKey then ⟨500, .errorOnly "Server configuration error", 0, 0⟩
  else
    match factLoop parse env 1 MAX_VERIFICATION_ATTEMPTS 0 0 with
    | (.success fact, gens, vers) => ⟨200, .fact (some fact) true, gens, vers⟩
    | (.exhausted, gens, vers) => ⟨200, .fact none false, gens, vers⟩
    | (.threw, gens, vers) =>
      ⟨500, .errWithFact "Failed to get verified fun fact" none false, gens, vers⟩

/- ### The browser client (src/services/claude.js, production path)

getFunFact posts the place name to the endpoint.  A non-ok response
throws into the catch, which returns the fixed fallback sentence; an ok
response returns data.funFact or else data.fallback — and the server
never sends a fallback field, so a null funFact yields the JavaScript
value undefined. -/

/-- What getFunFact hands back to the UI: a string, or undefined. -/
inductive GetFunFactResult where
  | fact (s : String)
  | undef
deriving DecidableEq, Repr

/-- The deterministic fallback sentence of getFunFact's catch block
(src/services/claude.js line 105). -/
def fallbackFact (placeName : String) : String :=
  "🚗 You" ++ String.mk [Char.ofNat 39] ++ "re on an adventure through "
    ++ placeName ++ "! Keep your eyes open for cool things!"

/-- getFunFact (production path) composed with the fun-fact endpoint:
the client treats any status in 200..299 as ok and evaluates
data.funFact or-else data.fallback, where data.fallback is always the
JavaScript value undefined (the server never sends that field); a non-ok
status throws into the catch, which returns the fallback sentence. -/
def getFunFactProd (parse : List Char → Option VerParsed)
    (hasApiKey : Bool) (placeName : String) (env : Nat → AttemptEnv) :
    GetFunFactResult :=
  let out := funFactHandler parse hasApiKey ⟨"POST", some placeName, false⟩ env
  if 200 ≤ out.status && out.status < 300 then
    match out.body with
    | .fact (some f) _ => if f = "" then .undef else .fact f
    | _ => .undef
  else .fact (fallbackFact placeName)

/- ### The narration queue (src/services/speech.js, OpenAI TTS variant)

Module state: a backlog of queued requests, a processing flag, one
persistent audio element.  speak pushes a request and (synchronously)
runs processQueue, which no-ops while a request is being processed;
otherwise it dequeues the most recent request, resolves all earlier
queued promises silently, and starts fetchAndPlayAudio.  The
asynchronous completions — the fetch-and-play call finishing or
throwing, the audio element's ended or error events — are modelled as
events chosen by the environment.  The Web Speech fallback is folded
into a single outcome value per invocation. -/

/-- How one fallbackToWebSpeech invocation turns out: the runtime has no
speechSynthesis (reject immediately), the utterance speaks and ends
(resolve), or the utterance errors after the attempt (reject). -/
inductive FbOutcome where
  | notSupported
  | speaksEnds
  | speaksErrors
deriving DecidableEq, Repr

/-- The state of the speech module.  The id-lists record, in order, the
observable promise settlements and playback attempts:
played are texts for which the primary path started audible playback,
fallbackPlayed are texts handed to the Web Speech fallback. -/
structure SpeechState where
  queue : List (Nat × String)
  processing : Bool
  inFlight : Option (Nat × String)
  playing : Option (Nat × String)
  played : List String
  fallbackPlayed : List String
  resolvedSilent : List Nat
  resolvedDone : List Nat
  rejected : List Nat
deriving DecidableEq, Repr

/-- The module's initial state: empty queue, nothing processing. -/
def initSpeechState : SpeechState :=
  ⟨[], false, none, none, [], [], [], [], []⟩

/-- Last element of a nonempty list, structurally. -/
def lastItem : Nat × String → List (Nat × String) → Nat × String
  | x, [] => x
  | _, y :: rest => lastItem y rest

/-- The synchronous prefix of processQueue (lines 76-102): bail out if
already processing or the queue is empty; otherwise pause the audio
element, take the most recent request, resolve every earlier queued
request silently, clear the queue, set the processing flag, and start
the fetch for the taken request. -/
def processQueueSync (s : SpeechState) : SpeechState :=
  if s.processing then s
  else
    match s.queue with
    | [] => s
    | x :: rest =>
      { s with
          processing := true
          playing := none
          queue := []
          resolvedSilent := s.resolvedSilent ++ ((x :: rest).dropLast.map Prod.fst)
          inFlight := some (lastItem x rest) }

/-- One fallbackToWebSpeech invocation for a request, applied after the
primary path failed (the source clears the processing flag first, then
chains resolve and reject on the fallback promise). -/
def fallbackRun (s : SpeechState) (it : Nat × String) (fb : FbOutcome) :
    SpeechState :=
  match fb with
  | .notSupported => { s with rejected := s.rejected ++ [it.1] }
  | .speaksEnds =>
    { s with
        fallbackPlayed := s.fallbackPlayed ++ [it.2]
        resolvedDone := s.resolvedDone ++ [it.1] }
  | .speaksErrors =>
    { s with
        fallbackPlayed := s.fallbackPlayed ++ [it.2]
        rejected := s.rejected ++ [it.1] }

/-- The events that drive the speech module: a speak call (which runs
the synchronous part of processQueue), completion or failure of the
in-flight fetch-and-play, the audio element's ended or error events for
the playing request, and stopSpeaking. -/
inductive SpeechEvent where
  | speakReq (id : Nat) (text : String)
  | fetchOk
  | fetchFail (fb : FbOutcome)
  | audioEnded
  | audioError (fb : FbOutcome)
  | stop
deriving DecidableEq, Repr

/-- The transition function of the speech module.  Each branch follows
the corresponding source path: speak pushes and drains (lines 65-71);
fetchAndPlayAudio success installs the ended and error handlers and
playback begins (lines 102-115); its failure clears the processing flag
and runs the fallback (lines 117-122); onended resolves and drains the
backlog (lines 104-108); onerror clears the flag and runs the fallback
(lines 110-115); stopSpeaking resolves all queued requests, clears the
queue and flag and pauses the audio (lines 209-231) — note it settles
only queued-not-started promises, not the playing one. -/
def applyEvent (s : SpeechState) : SpeechEvent → SpeechState
  | .speakReq id text => processQueueSync { s with queue := s.queue ++ [(id, text)] }
  | .fetchOk =>
    match s.inFlight with
    | some it =>
      { s with inFlight := none, playing := some it, played := s.played ++ [it.2] }
    | none => s
  | .fetchFail fb =>
    match s.inFlight with
    | some it => fallbackRun { s with inFlight := none, processing := false } it fb
    | none => s
  | .audioEnded =>
    match s.playing with
    | some it =>
      processQueueSync
        { s with
            playing := none
            processing := false
            resolvedDone := s.resolvedDone ++ [it.1] }
    | none => s
  | .audioError fb =>
    match s.playing with
    | some it => fallbackRun { s with playing := none, processing := false } it fb
    | none => s
  | .stop =>
    { s with
        queue := []
        processing := false
        playing := none
        resolvedSilent := s.resolvedSilent ++ s.queue.map Prod.fst }

/-- Run a list of events from a state. -/
def runEvents (s : SpeechState) (evts : List SpeechEvent) : SpeechState :=
  evts.foldl applyEvent s

/- ### Trigger evaluation (src/components/FunFactCard.jsx)

The position-driven effect debounces position changes by two seconds
and then runs fetchFunFact, which reverse-geocodes the position and
starts an acquisition only when the geocoded city part differs from
lastPlace.  No other quantity is consulted. -/

/-- The debounce on position-driven fetches:
setTimeout(fetchFunFact, 2000) in FunFactCard.jsx line 282. -/
def POSITION_DEBOUNCE_MS : Nat := 2000

/-- The acquisition decision of fetchFunFact (lines 223-235): skip when
reverse geocoding produced nothing, skip when the city part equals
lastPlace, otherwise fetch. -/
def fetchDecision (geocoded : Option String) (lastPlace : Option String) :
    Bool :=
  match geocoded with
  | none => false
  | some place => !(lastPlace == some (shortPlaceOf place))

/-- The trigger evaluation extended with the quantities the spec says
are consulted.  The source's fetchFunFact reads neither a clock nor a
distance: elapsedMs and milesTraveled appear nowhere in the effect (no
time- or distance-trigger code exists in the repository), so the result
is fetchDecision on the place names alone. -/
def triggerFires (_elapsedMs : Nat) (_milesTraveled : Nat)
    (geocoded : Option String) (lastPlace : Option String) : Bool :=
  fetchDecision geocoded lastPlace

/- ### The TTS endpoint (api/speak.js) -/

/-- The valid OpenAI voices (api/speak.js line 27). -/
def validVoices : List String :=
  ["alloy", "echo", "fable", "onyx", "nova", "shimmer"]

/-- A speak-endpoint request: method, text and optional voice (the
destructuring default makes an absent voice the string nova). -/
structure SpeakRequest where
  method : String
  text : Option String
  voice : Option String
deriving DecidableEq, Repr

/-- The upstream OpenAI TTS fetch outcome: ok with audio, a non-2xx
status, or a thrown network error. -/
inductive SpeakUpstream where
  | ok
  | errStatus (status : Nat)
  | netError
deriving DecidableEq, Repr

/-- A speak-endpoint response: an error body or the mp3 audio, recorded
together with the voice that was forwarded upstream. -/
inductive SpeakBody where
  | err (msg : String)
  | audio (voice : String)
deriving DecidableEq, Repr

/-- The api/speak.js handler (lines 13-75): reject non-POST, reject a
falsy text with 400, silently replace an unrecognized voice by nova,
give 500 on a missing key, then forward to OpenAI and mirror its
failure status or return the audio. -/
def speakHandler (hasApiKey : Bool) (req : SpeakRequest)
    (up : SpeakUpstream) : Nat × SpeakBody :=
  if !(req.method = "POST") then (405, .err "Method not allowed")
  else if optFalsy req.text then (400, .err "text is required")
  else
    let voice := req.voice.getD "nova"
    let selectedVoice := if validVoices.contains voice then voice else "nova"
    if !hasApiKey then (500, .err "Server configuration error")
    else
      match up with
      | .ok => (200, .audio selectedVoice)
      | .errStatus st => (st, .err "Failed to generate speech")
      | .netError => (500, .err "Failed to generate speech")

/- ### Helper lemmas -/

/-- If the fence regex matches, the text contains a fence. -/
theorem extractFence_hasFence :
    ∀ cs m : List Char, extractFence cs = some m → hasFence cs = true := by
  intro cs
  induction cs with
  | nil => intro m h; simp [extractFence] at h
  | cons c rest ih =>
    intro m h
    rw [extractFence] at h
    rw [hasFence]
    by_cases hs : startsFence (c :: rest) = true
    · simp [hs]
    · rw [Bool.not_eq_true] at hs
      rw [hs] at h
      simp only [Bool.false_eq_true, if_false] at h
      simp [ih m h]

/-- The jsonText computation, characterized through the regex match:
when the regex matches the trimmed reply the trimmed capture is used,
otherwise the whole trimmed reply. -/
theorem jsonTextOf_eq (raw : List Char) :
    jsonTextOf raw =
      ((extractFence (trimChars raw)).map trimChars).getD (trimChars raw) := by
  rw [jsonTextOf]
  cases hef : extractFence (trimChars raw) with
  | none =>
    by_cases hs : hasFence (trimChars raw) = true
    · simp [hs, hef]
    · rw [Bool.not_eq_true] at hs
      simp [hs, hef]
  | some cap =>
    have hhf := extractFence_hasFence _ _ hef
    simp [hhf, hef]

/- ### Claim theorems -/

/-- C4: for every successfully parsed verifier response, the
self-assessment strategy marks the fact verified exactly when the parsed
confidence is at least 7, and the evidence-search strategy exactly when
the parsed verified flag is strictly true and the parsed confidence is
at least the deployment threshold (5 for the serverless endpoint, 6 for
the in-browser variant); and each endpoint returns exactly that verdict
on a parsed response. -/
theorem c4_verification_thresholds (p : VerParsed) :
    (selfAssessVerified p = true ↔ 7 ≤ p.confidence) ∧
    (evidenceVerifiedApi p = true ↔ (p.verifiedFlag = some true ∧ 5 ≤ p.confidence)) ∧
    (evidenceVerifiedDev p = true ↔ (p.verifiedFlag = some true ∧ 6 ≤ p.confidence)) ∧
    selfVerifyHandler true ⟨"POST", some "F", some "P"⟩ (.ok [.text []])
        (fun _ => some p) = (200, .verdict (selfAssessVerified p) p.confidence) ∧
    verifyFactHandler true ⟨"POST", some "F", some "P"⟩ (.ok [.text []])
        (fun _ => some p) = (200, .verdict (evidenceVerifiedApi p) p.confidence) ∧
    verifyFactDev (.ok [.text []]) (fun _ => some p) =
        (evidenceVerifiedDev p, p.confidence) := by
  refine ⟨?_, ?_, ?_, rfl, rfl, rfl⟩
  · simp [selfAssessVerified]
  · simp [evidenceVerifiedApi, Bool.and_eq_true, beq_iff_eq]
  · simp [evidenceVerifiedDev, Bool.and_eq_true, beq_iff_eq]

/-- C5: the verifier's response parsing extracts the first code-fenced
block when the fence regex matches, otherwise hands the whole trimmed
reply to JSON.parse, and the endpoint fails soft — a non-2xx upstream
response, a reply with no text block, or a JSON parse error all yield a
200 with verified false and confidence 0, never a propagated error. -/
theorem c5_fail_soft_parsing :
    (∀ parse : List Char → Option VerParsed,
        verifyFactHandler true ⟨"POST", some "F", some "P"⟩ .notOk parse =
          (200, .verdict false 0)) ∧
    (∀ (parse : List Char → Option VerParsed) (content : List VBlock),
        findTextBlock content = none →
          verifyFactHandler true ⟨"POST", some "F", some "P"⟩ (.ok content) parse =
            (200, .verdict false 0)) ∧
    (∀ (parse : List Char → Option VerParsed) (raw : List Char),
        parse (jsonTextOf raw) = none →
          verifyFactHandler true ⟨"POST", some "F", some "P"⟩ (.ok [.text raw]) parse =
            (200, .verdict false 0)) ∧
    (∀ raw : List Char,
        jsonTextOf raw =
          ((extractFence (trimChars raw)).map trimChars).getD (trimChars raw)) := by
  refine ⟨fun parse => rfl, ?_, ?_, jsonTextOf_eq⟩
  · intro parse content h
    simp [verifyFactHandler, optFalsy, h]
  · intro parse raw h
    simp [verifyFactHandler, optFalsy, findTextBlock, h]

/-- Witness for C5: the fail-soft equations applied to a concrete
toolless reply and a concrete unparsable reply. -/
theorem c5_fail_soft_parsing_witness :
    verifyFactHandler true ⟨"POST", some "F", some "P"⟩ (.ok [VBlock.other])
        (fun _ => none) = (200, .verdict false 0) ∧
    verifyFactHandler true ⟨"POST", some "F", some "P"⟩
        (.ok [VBlock.text ("abc".data)]) (fun _ => none) =
      (200, .verdict false 0) :=
  ⟨c5_fail_soft_parsing.2.1 (fun _ => none) [VBlock.other] rfl,
   c5_fail_soft_parsing.2.2.1 (fun _ => none) "abc".data rfl⟩

/-- C2: if the verification of attempt k returns verified true (and the
earlier attempts generated but did not verify), the handler returns the
candidate of attempt k with verified true immediately, and the generator
and verifier have each been invoked exactly k times — in particular
exactly once when attempt 1 verifies. -/
theorem c2_short_circuit (parse : List Char → Option VerParsed)
    (env : Nat → AttemptEnv) (pn f : String) (k : Nat)
    (hpn : pn ≠ "") (hk1 : 1 ≤ k) (hk3 : k ≤ 3)
    (hprev : ∀ i, 1 ≤ i → i < k →
      (∃ t, (env i).gen = GenOutcome.ok t) ∧
        (verifyFactInner (env i).ver parse).1 = false)
    (hgen : (env k).gen = GenOutcome.ok f)
    (hver : (verifyFactInner (env k).ver parse).1 = true) :
    funFactHandler parse true ⟨"POST", some pn, false⟩ env =
      ⟨200, FactBody.fact (some f) true, k, k⟩ := by
  interval_cases k
  · simp [funFactHandler, optFalsy, hpn, MAX_VERIFICATION_ATTEMPTS, factLoop,
      hgen, hver]
  · obtain ⟨⟨t1, hg1⟩, hv1⟩ := hprev 1 (by norm_num) (by norm_num)
    simp [funFactHandler, optFalsy, hpn, MAX_VERIFICATION_ATTEMPTS, factLoop,
      hg1, hv1, hgen, hver]
  · obtain ⟨⟨t1, hg1⟩, hv1⟩ := hprev 1 (by norm_num) (by norm_num)
    obtain ⟨⟨t2, hg2⟩, hv2⟩ := hprev 2 (by norm_num) (by norm_num)
    simp [funFactHandler, optFalsy, hpn, MAX_VERIFICATION_ATTEMPTS, factLoop,
      hg1, hv1, hg2, hv2, hgen, hver]

/-- Witness for C2: with attempt 1 generating "A" and the verifier
accepting it with confidence 9, the handler answers 200 with that
candidate after exactly one generator call. -/
theorem c2_short_circuit_witness :
    funFactHandler (fun _ => some ⟨some true, 9⟩) true
        ⟨"POST", some "Springfield", false⟩
        (fun _ => ⟨GenOutcome.ok "A", VUpstream.ok [VBlock.text []]⟩) =
      ⟨200, FactBody.fact (some "A") true, 1, 1⟩ :=
  c2_short_circuit (fun _ => some ⟨some true, 9⟩)
    (fun _ => ⟨GenOutcome.ok "A", VUpstream.ok [VBlock.text []]⟩)
    "Springfield" "A" 1 (by decide) (by decide) (by decide)
    (fun i h1 h2 => absurd (Nat.lt_of_lt_of_le h2 h1) (Nat.lt_irrefl i))
    rfl (by decide)

/-- C3, refuted as stated: when the generator of attempt 1 fails, the
thrown error escapes the loop into the handler's catch — the loop does
NOT proceed to attempt 2 (the generator ran exactly once) and the
endpoint answers 500, not 200 with verified false. -/
theorem c3_generator_failure_claim_false :
    funFactHandler (fun _ => none) true ⟨"POST", some "Springfield", false⟩
        (fun _ => ⟨GenOutcome.fail, VUpstream.notOk⟩) =
      ⟨500, FactBody.errWithFact "Failed to get verified fun fact" none false,
        1, 0⟩ ∧
    (funFactHandler (fun _ => none) true ⟨"POST", some "Springfield", false⟩
        (fun _ => ⟨GenOutcome.fail, VUpstream.notOk⟩)).status ≠ 200 ∧
    (funFactHandler (fun _ => none) true ⟨"POST", some "Springfield", false⟩
        (fun _ => ⟨GenOutcome.fail, VUpstream.notOk⟩)).genCalls = 1 := by
  refine ⟨rfl, ?_, rfl⟩
  decide

/-- C3, amended: a generator failure on attempt k aborts the loop
immediately and the endpoint answers 500 (its catch-path body) after k
generator calls and k-1 verifier calls; only verifier-side failures are
absorbed as unverified attempts, so when all three attempts generate but
none verifies the endpoint answers 200 with verified false; and missing
server credentials answer 500 with the configuration error. -/
theorem c3_generator_failure_amended :
    (∀ (parse : List Char → Option VerParsed) (env : Nat → AttemptEnv)
        (pn : String) (k : Nat), pn ≠ "" → 1 ≤ k → k ≤ 3 →
      (∀ i, 1 ≤ i → i < k →
        (∃ t, (env i).gen = GenOutcome.ok t) ∧
          (verifyFactInner (env i).ver parse).1 = false) →
      (env k).gen = GenOutcome.fail →
      funFactHandler parse true ⟨"POST", some pn, false⟩ env =
        ⟨500, FactBody.errWithFact "Failed to get verified fun fact" none false,
          k, k - 1⟩) ∧
    (∀ (parse : List Char → Option VerParsed) (env : Nat → AttemptEnv)
        (pn : String), pn ≠ "" →
      (∀ i, 1 ≤ i → i ≤ 3 →
        (∃ t, (env i).gen = GenOutcome.ok t) ∧
          (verifyFactInner (env i).ver parse).1 = false) →
      funFactHandler parse true ⟨"POST", some pn, false⟩ env =
        ⟨200, FactBody.fact none false, 3, 3⟩) ∧
    (∀ (parse : List Char → Option VerParsed) (env : Nat → AttemptEnv)
        (pn : Option String), optFalsy pn = false →
      funFactHandler parse false ⟨"POST", pn, false⟩ env =
        ⟨500, FactBody.errorOnly "Server configuration error", 0, 0⟩) := by
  refine ⟨?_, ?_, ?_⟩
  · intro parse env pn k hpn hk1 hk3 hprev hfail
    interval_cases k
    · simp [funFactHandler, optFalsy, hpn, MAX_VERIFICATION_ATTEMPTS, factLoop,
        hfail]
    · obtain ⟨⟨t1, hg1⟩, hv1⟩ := hprev 1 (by norm_num) (by norm_num)
      simp [funFactHandler, optFalsy, hpn, MAX_VERIFICATION_ATTEMPTS, factLoop,
        hg1, hv1, hfail]
    · obtain ⟨⟨t1, hg1⟩, hv1⟩ := hprev 1 (by norm_num) (by norm_num)
      obtain ⟨⟨t2, hg2⟩, hv2⟩ := hprev 2 (by norm_num) (by norm_num)
      simp [funFactHandler, optFalsy, hpn, MAX_VERIFICATION_ATTEMPTS, factLoop,
        hg1, hv1, hg2, hv2, hfail]
  · intro parse env pn hpn hall
    obtain ⟨⟨t1, hg1⟩, hv1⟩ := hall 1 (by norm_num) (by norm_num)
    obtain ⟨⟨t2, hg2⟩, hv2⟩ := hall 2 (by norm_num) (by norm_num)
    obtain ⟨⟨t3, hg3⟩, hv3⟩ := hall 3 (by norm_num) (by norm_num)
    simp [funFactHandler, optFalsy, hpn, MAX_VERIFICATION_ATTEMPTS, factLoop,
      hg1, hv1, hg2, hv2, hg3, hv3]
  · intro parse env pn hpn
    simp [funFactHandler, hpn]

/-- Witness for C3's amended statement: a generator failure on attempt 2
after an unverified attempt 1 yields the 500 catch body with two
generator calls and one verifier call; a run where every attempt is
generated but unverified yields 200 verified false; and a missing key
yields the configuration 500. -/
theorem c3_generator_failure_amended_witness :
    funFactHandler (fun _ => none) true ⟨"POST", some "Reno", false⟩
        (fun i => if i = 1 then ⟨GenOutcome.ok "B", VUpstream.notOk⟩
                  else ⟨GenOutcome.fail, VUpstream.notOk⟩) =
      ⟨500, FactBody.errWithFact "Failed to get verified fun fact" none false,
        2, 1⟩ ∧
    funFactHandler (fun _ => none) true ⟨"POST", some "Reno", false⟩
        (fun _ => ⟨GenOutcome.ok "B", VUpstream.notOk⟩) =
      ⟨200, FactBody.fact none false, 3, 3⟩ ∧
    funFactHandler (fun _ => none) false ⟨"POST", some "Reno", false⟩
        (fun _ => ⟨GenOutcome.ok "B", VUpstream.notOk⟩) =
      ⟨500, FactBody.errorOnly "Server configuration error", 0, 0⟩ :=
  ⟨c3_generator_failure_amended.1 (fun _ => none)
      (fun i => if i = 1 then ⟨GenOutcome.ok "B", VUpstream.notOk⟩
                else ⟨GenOutcome.fail, VUpstream.notOk⟩)
      "Reno" 2 (by decide) (by decide) (by decide)
      (fun i h1 h2 => by
        interval_cases i
        exact ⟨⟨"B", rfl⟩, rfl⟩)
      rfl,
   c3_generator_failure_amended.2.1 (fun _ => none)
      (fun _ => ⟨GenOutcome.ok "B", VUpstream.notOk⟩) "Reno" (by decide)
      (fun i h1 h2 => ⟨⟨"B", rfl⟩, rfl⟩),
   c3_generator_failure_amended.2.2 (fun _ => none)
      (fun _ => ⟨GenOutcome.ok "B", VUpstream.notOk⟩) (some "Reno") rfl⟩

/-- C1, the code-bug evaluation: when every one of the three attempts
generates a candidate but none verifies (confidence 3 from the
verifier), the endpoint answers 200 with funFact null and verified
false after exactly three round trips — and the composed client
getFunFact then returns the JavaScript value undefined, because it
evaluates data.funFact or-else data.fallback and the server never sends
a fallback field; the deterministic fallback sentence of its catch block
is not returned. -/
theorem c1_all_unverified_returns_undefined :
    funFactHandler (fun _ => some ⟨some true, 3⟩) true
        ⟨"POST", some "Springfield", false⟩
        (fun _ => ⟨GenOutcome.ok "C", VUpstream.ok [VBlock.text []]⟩) =
      ⟨200, FactBody.fact none false, 3, 3⟩ ∧
    getFunFactProd (fun _ => some ⟨some true, 3⟩) true "Springfield"
        (fun _ => ⟨GenOutcome.ok "C", VUpstream.ok [VBlock.text []]⟩) =
      GetFunFactResult.undef ∧
    GetFunFactResult.undef ≠ GetFunFactResult.fact (fallbackFact "Springfield") :=
  ⟨rfl, rfl, fun h => GetFunFactResult.noConfusion h⟩

/-- C6, refuted as stated: three narration requests enqueued before the
first one finishes result in TWO playbacks, not one — the first request
is already in flight when the later ones arrive and plays to the end,
then the most recent request plays; only the middle request is resolved
silently without playing. -/
theorem c6_three_requests_claim_false :
    (runEvents initSpeechState
        [.speakReq 1 "first", .speakReq 2 "second", .speakReq 3 "third",
         .fetchOk, .audioEnded, .fetchOk, .audioEnded]).played =
      ["first", "third"] ∧
    (runEvents initSpeechState
        [.speakReq 1 "first", .speakReq 2 "second", .speakReq 3 "third",
         .fetchOk, .audioEnded, .fetchOk, .audioEnded]).played.length ≠ 1 ∧
    (runEvents initSpeechState
        [.speakReq 1 "first", .speakReq 2 "second", .speakReq 3 "third",
         .fetchOk, .audioEnded, .fetchOk, .audioEnded]).played ≠ ["third"] := by
  refine ⟨rfl, by decide, by decide⟩

/-- C6, amended: for three requests enqueued in quick succession before
the first finishes, the first request (already dequeued and in flight)
plays, then exactly one of the two queued requests — the most recently
enqueued — plays; the middle request's promise is resolved, not
rejected, without its text being played, and both played requests'
promises resolve on playback end. -/
theorem c6_three_requests_amended (t1 t2 t3 : String) :
    (runEvents initSpeechState
        [.speakReq 1 t1, .speakReq 2 t2, .speakReq 3 t3,
         .fetchOk, .audioEnded, .fetchOk, .audioEnded]).played = [t1, t3] ∧
    (runEvents initSpeechState
        [.speakReq 1 t1, .speakReq 2 t2, .speakReq 3 t3,
         .fetchOk, .audioEnded, .fetchOk, .audioEnded]).resolvedSilent = [2] ∧
    (runEvents initSpeechState
        [.speakReq 1 t1, .speakReq 2 t2, .speakReq 3 t3,
         .fetchOk, .audioEnded, .fetchOk, .audioEnded]).resolvedDone = [1, 3] ∧
    (runEvents initSpeechState
        [.speakReq 1 t1, .speakReq 2 t2, .speakReq 3 t3,
         .fetchOk, .audioEnded, .fetchOk, .audioEnded]).rejected = [] :=
  ⟨rfl, rfl, rfl, rfl⟩

/-- C7: when the primary synthesis path fails — at the fetch-and-decode
stage or at the playback stage — exactly one fallback playback attempt
is made with the same text and the caller's promise still resolves; the
promise rejects only when the fallback path cannot produce audio either
(no speechSynthesis in the runtime, or the fallback utterance itself
errors). -/
theorem c7_fallback_single_attempt (t : String) :
    (runEvents initSpeechState [.speakReq 1 t, .fetchFail .speaksEnds]).fallbackPlayed = [t] ∧
    (runEvents initSpeechState [.speakReq 1 t, .fetchFail .speaksEnds]).resolvedDone = [1] ∧
    (runEvents initSpeechState [.speakReq 1 t, .fetchFail .speaksEnds]).rejected = [] ∧
    (runEvents initSpeechState [.speakReq 1 t, .fetchFail .notSupported]).fallbackPlayed = [] ∧
    (runEvents initSpeechState [.speakReq 1 t, .fetchFail .notSupported]).rejected = [1] ∧
    (runEvents initSpeechState [.speakReq 1 t, .fetchOk, .audioError .speaksEnds]).fallbackPlayed = [t] ∧
    (runEvents initSpeechState [.speakReq 1 t, .fetchOk, .audioError .speaksEnds]).resolvedDone = [1] ∧
    (runEvents initSpeechState [.speakReq 1 t, .fetchOk, .audioError .speaksEnds]).rejected = [] ∧
    (runEvents initSpeechState [.speakReq 1 t, .fetchOk, .audioError .notSupported]).rejected = [1] ∧
    (runEvents initSpeechState [.speakReq 1 t, .fetchFail .speaksErrors]).fallbackPlayed = [t] ∧
    (runEvents initSpeechState [.speakReq 1 t, .fetchFail .speaksErrors]).rejected = [1] :=
  ⟨rfl, rfl, rfl, rfl, rfl, rfl, rfl, rfl, rfl, rfl, rfl⟩

/-- C8, refuted as stated: with ten minutes elapsed and ten miles
traveled since the last acquisition but the same reverse-geocoded city
part, no acquisition is initiated — the source's trigger evaluation
reads only the place name, so the claim's time and distance conditions
never fire. -/
theorem c8_trigger_claim_false :
    triggerFires 600000 10 (some "Springfield, Illinois")
        (some "Springfield") = false ∧
    fetchDecision (some "Springfield, Illinois") (some "Springfield") = false := by
  refine ⟨by decide, by decide⟩

/-- C8, amended: a new fact acquisition is initiated exactly when the
debounced (2000 ms) position update reverse-geocodes to a place whose
city part differs from the last place; a failed reverse geocode never
triggers, and elapsed time and distance traveled are not consulted at
all (no time- or distance-trigger code exists). -/
theorem c8_trigger_amended :
    (∀ elapsedMs miles lastPlace,
        triggerFires elapsedMs miles none lastPlace = false) ∧
    (∀ elapsedMs miles place lastPlace,
        triggerFires elapsedMs miles (some place) lastPlace = true ↔
          ¬ lastPlace = some (shortPlaceOf place)) ∧
    (∀ elapsedMs elapsedMs' miles miles' geocoded lastPlace,
        triggerFires elapsedMs miles geocoded lastPlace =
          triggerFires elapsedMs' miles' geocoded lastPlace) ∧
    POSITION_DEBOUNCE_MS = 2000 := by
  refine ⟨fun _ _ _ => rfl, ?_, fun _ _ _ _ _ _ => rfl, rfl⟩
  intro e m p l
  simp [triggerFires, fetchDecision]

/-- C9: stopSpeaking is idempotent and safe with nothing playing — on
the initial state it is the identity — and it cancels every queued but
not yet started request by resolving its promise silently: the queued
ids move to the silently-resolved list, the queue empties, and nothing
is rejected or played by the call. -/
theorem c9_stop_idempotent :
    applyEvent initSpeechState .stop = initSpeechState ∧
    (∀ s, applyEvent (applyEvent s .stop) .stop = applyEvent s .stop) ∧
    (∀ s, (applyEvent s .stop).resolvedSilent =
            s.resolvedSilent ++ s.queue.map Prod.fst ∧
          (applyEvent s .stop).queue = [] ∧
          (applyEvent s .stop).rejected = s.rejected ∧
          (applyEvent s .stop).played = s.played ∧
          (applyEvent s .stop).fallbackPlayed = s.fallbackPlayed) := by
  refine ⟨rfl, ?_, ?_⟩
  · intro s
    simp [applyEvent]
  · intro s
    simp [applyEvent]

/-- C10: a POST to the speech endpoint with a missing text field is
rejected with a 400 error, while a voice outside the accepted list is
silently replaced by nova — the response is identical to a request for
nova and, on upstream success, is the audio synthesized with nova, not
an error. -/
theorem c10_speak_validation :
    (∀ (hasKey : Bool) (voice : Option String) (up : SpeakUpstream),
        speakHandler hasKey ⟨"POST", none, voice⟩ up =
          (400, SpeakBody.err "text is required")) ∧
    (∀ (v : String) (up : SpeakUpstream), validVoices.contains v = false →
        speakHandler true ⟨"POST", some "hello", some v⟩ up =
          speakHandler true ⟨"POST", some "hello", some "nova"⟩ up) ∧
    (∀ v : String, validVoices.contains v = false →
        speakHandler true ⟨"POST", some "hello", some v⟩ .ok =
          (200, SpeakBody.audio "nova")) := by
  refine ⟨fun _ _ _ => rfl, ?_, ?_⟩
  · intro v up h
    have h' : v ∉ validVoices := by simpa using h
    simp [speakHandler, h']
  · intro v h
    have h' : v ∉ validVoices := by simpa using h
    simp [speakHandler, h', optFalsy]

/-- Witness for C10: the voice robot is not in the accepted list and is
replaced by nova. -/
theorem c10_speak_validation_witness :
    validVoices.contains "robot" = false ∧
    speakHandler true ⟨"POST", some "hello", some "robot"⟩ .ok =
      (200, SpeakBody.audio "nova") :=
  ⟨by decide, c10_speak_validation.2.2 "robot" (by decide)⟩
